import Mathlib

/-!
Verification development for the warehouse optimization core
(`optimization.py`, `picking_optimizer.py`, `ml_predictor.py`).

Embedding conventions:
* Python floats are modelled by exact rationals `ℚ` (idealized real-number
  semantics of the arithmetic in the source); quantities that are genuinely
  irrational (sums of Euclidean distances in the picking-path planner) are
  modelled in `ℝ`.
* `math.sqrt d < c` for `d, c ≥ 0` is modelled by the equivalent comparison
  `d < c^2`, so the clearance check stays inside `ℚ`.
* The boolean occupancy array `occupancy_grid` is represented by the list of
  voxel-index ranges that have been marked; a range query answers true iff
  the queried range has a nonempty intersection with some marked range,
  which agrees with `np.any` over the corresponding slice for the
  nonnegative coordinates produced by all placement strategies.
* Python exceptions (`ZeroDivisionError`, `ValueError`) are modelled by
  `Except String`; a raised exception is `.error`.
* `datetime.now().month` is passed in as an explicit `month` parameter.
* Python's `int(x)` (truncation toward zero) is `pyInt`; `round(x, n)`
  (round-half-to-even) is `pyRound`.
* Python's stable `sorted(..., key, reverse)` is `List.mergeSort` with the
  corresponding total boolean preorder (ties keep the original order in
  both).
-/

namespace WarePathAI

/-- Python `int(x)` on a float: truncation toward zero. -/
def pyInt (q : ℚ) : ℤ :=
  if 0 ≤ q then ⌊q⌋ else ⌈q⌉

/-- Round-half-to-even of a rational to an integer, as Python's `round`. -/
def roundHalfEven (q : ℚ) : ℤ :=
  if q - ⌊q⌋ < 1/2 then ⌊q⌋
  else if 1/2 < q - ⌊q⌋ then ⌊q⌋ + 1
  else if ⌊q⌋ % 2 = 0 then ⌊q⌋ else ⌊q⌋ + 1

/-- Python `round(q, n)` (round-half-to-even at `n` decimal places). -/
def pyRound (q : ℚ) (n : ℕ) : ℚ :=
  (roundHalfEven (q * 10 ^ n) : ℚ) / 10 ^ n

/-- Checked float division: Python raises `ZeroDivisionError` on a zero
denominator. -/
def pyDiv (a b : ℚ) : Except String ℚ :=
  if b = 0 then .error "division by zero" else .ok (a / b)

instance {ε α : Type} [DecidableEq ε] [DecidableEq α] : DecidableEq (Except ε α)
  | .ok a, .ok b => decidable_of_iff (a = b) (by simp)
  | .error e, .error f => decidable_of_iff (e = f) (by simp)
  | .ok _, .error _ => isFalse (by simp)
  | .error _, .ok _ => isFalse (by simp)

/-- Model of `np.arange(s, e, step)` for positive `step`: the values
`s + k*step` for `k < ⌈(e-s)/step⌉`. -/
def arange (s e step : ℚ) : List ℚ :=
  if e ≤ s then []
  else (List.range (⌈(e - s) / step⌉).toNat).map (fun k => s + (k : ℚ) * step)

/-- Whether `pat` is a prefix of `s` (over character lists). -/
def listPrefixOf : List Char → List Char → Bool
  | [], _ => true
  | _ :: _, [] => false
  | p :: ps, c :: cs => p == c && listPrefixOf ps cs

/-- Whether `pat` occurs as a contiguous sublist of `s`. -/
def occursIn (pat : List Char) : List Char → Bool
  | [] => pat == []
  | c :: cs => listPrefixOf pat (c :: cs) || occursIn pat cs

/-- Python's substring test `pat in s`, over character lists. -/
def containsSub (s pat : List Char) : Bool :=
  occursIn pat s

/-- Python's `str.lower()` for the ASCII item names handled here. -/
def lowerStr (s : String) : List Char :=
  s.data.map Char.toLower

/-- Python dict built by inserting `(key, value)` pairs in list order and
then read with `.get key`: the value of the last insertion wins. -/
def dictFind (l : List (String × α)) (k : String) : Option α :=
  (l.reverse.find? (fun p => p.1 == k)).map (·.2)

/-! ## Warehouse, occupancy grid and clearance tracker (`optimization.py`) -/

/-- Grid resolution in meters (`self.grid_resolution = 0.5`). -/
def gridRes : ℚ := 1/2

/-- Minimum distance between different object types in meters
(`self.type_distance_constraint = 1.0`). -/
def typeDistanceConstraint : ℚ := 1

/-- Warehouse dimensions fixed at engine construction. -/
structure Warehouse where
  length : ℚ
  width : ℚ
  height : ℚ
deriving DecidableEq, Repr

/-- Derived warehouse volume. -/
def Warehouse.volume (w : Warehouse) : ℚ := w.length * w.width * w.height

/-- Grid x extent: `int(warehouse_length / grid_resolution)`. -/
def Warehouse.gridLength (w : Warehouse) : ℤ := pyInt (w.length / gridRes)

/-- Grid y extent: `int(warehouse_width / grid_resolution)`. -/
def Warehouse.gridWidth (w : Warehouse) : ℤ := pyInt (w.width / gridRes)

/-- Grid z extent: `int(warehouse_height / grid_resolution)`. -/
def Warehouse.gridHeight (w : Warehouse) : ℤ := pyInt (w.height / gridRes)

/-- Half-open voxel index range `[xs, xe) × [ys, ye) × [zs, ze)`. -/
structure VoxRange where
  xs : ℤ
  xe : ℤ
  ys : ℤ
  ye : ℤ
  zs : ℤ
  ze : ℤ
deriving DecidableEq, Repr

/-- Nonempty intersection of two half-open voxel ranges. -/
def rangesOverlap (a b : VoxRange) : Bool :=
  max a.xs b.xs < min a.xe b.xe ∧
  max a.ys b.ys < min a.ye b.ye ∧
  max a.zs b.zs < min a.ze b.ze

/-- Axis-aligned box in continuous coordinates
`(x_min, y_min, z_min, x_max, y_max, z_max)`. -/
structure Bounds where
  xmin : ℚ
  ymin : ℚ
  zmin : ℚ
  xmax : ℚ
  ymax : ℚ
  zmax : ℚ
deriving DecidableEq, Repr

/-- Squared box-to-box distance `dx*dx + dy*dy + dz*dz` with the per-axis
gaps `max(0, max(lo_a - hi_b, lo_b - hi_a))` of
`_check_type_distance_constraint`.  The source compares
`math.sqrt(distSq) < type_distance_constraint`; we compare
`distSq < typeDistanceConstraint^2`, which is equivalent since both sides
of the source comparison are nonnegative. -/
def distSq (a b : Bounds) : ℚ :=
  let dx := max 0 (max (a.xmin - b.xmax) (b.xmin - a.xmax))
  let dy := max 0 (max (a.ymin - b.ymax) (b.ymin - a.ymax))
  let dz := max 0 (max (a.zmin - b.zmax) (b.zmin - a.zmax))
  dx * dx + dy * dy + dz * dz

/-- Entry of `placed_items_tracker`. -/
structure PlacedRec where
  type : String
  position : ℚ × ℚ × ℚ
  bounds : Bounds
deriving DecidableEq, Repr

/-- Mutable per-run engine state: the occupancy grid (as the list of marked
voxel ranges) and the placed-items tracker. -/
structure EngineState where
  grid : List VoxRange
  tracker : List PlacedRec
deriving DecidableEq, Repr

/-- The `optimize` prelude `self.occupancy_grid.fill(False)` and
`self.placed_items_tracker.clear()`: both per-run stores are emptied,
whatever they held before. -/
def resetForRun (_s : EngineState) : EngineState :=
  { grid := [], tracker := [] }

/-- `_check_type_distance_constraint`: reject iff some previously placed
item of a different type is closer than the clearance threshold. -/
def checkTypeDistanceConstraint (itemType : String) (itemBounds : Bounds)
    (tracker : List PlacedRec) : Bool :=
  tracker.all fun p =>
    itemType == p.type ||
    !(distSq itemBounds p.bounds < typeDistanceConstraint ^ 2)

/-- The voxel index range of a box, exactly as computed by both
`_can_place_item_at_position` and `_mark_space_occupied`: starts by
truncating division by the resolution, ends additionally clamped with
`min` to the grid extents. -/
def voxelRange (w : Warehouse) (len wid hgt x y z : ℚ) : VoxRange :=
  { xs := pyInt (x / gridRes)
    xe := min (pyInt ((x + len) / gridRes)) w.gridLength
    ys := pyInt (y / gridRes)
    ye := min (pyInt ((y + wid) / gridRes)) w.gridWidth
    zs := pyInt (z / gridRes)
    ze := min (pyInt ((z + hgt) / gridRes)) w.gridHeight }

/-- The `# Check bounds` test of `_can_place_item_at_position`:
`x_end > grid_length or y_end > grid_width or z_end > grid_height`. -/
def boundsExceeded (w : Warehouse) (r : VoxRange) : Bool :=
  w.gridLength < r.xe ∨ w.gridWidth < r.ye ∨ w.gridHeight < r.ze

/-- The continuous bounds `(x, y, z, x+length, y+width, z+height)` used by
the clearance check and recorded by the tracker. -/
def boxBounds (len wid hgt x y z : ℚ) : Bounds :=
  { xmin := x, ymin := y, zmin := z
    xmax := x + len, ymax := y + wid, zmax := z + hgt }

/-- `_can_place_item_at_position`: bounds test, occupancy collision test,
then (when a truthy type is given and the tracker is nonempty) the
inter-type clearance test.  All strategy call sites pass the item's type
string; Python's falsiness test `if item_type` is the test `itemType ≠ ""`. -/
def canPlaceItemAtPosition (w : Warehouse) (len wid hgt x y z : ℚ)
    (itemType : String) (s : EngineState) : Bool :=
  if boundsExceeded w (voxelRange w len wid hgt x y z) then false
  else if s.grid.any (rangesOverlap (voxelRange w len wid hgt x y z)) then false
  else if itemType ≠ "" ∧ s.tracker ≠ [] then
    checkTypeDistanceConstraint itemType (boxBounds len wid hgt x y z) s.tracker
  else true

/-- `_get_object_type`: keyword classification of the lowercased name,
else the first token (split on `_`, then on space). -/
def getObjectType (name : String) : String :=
  let n := lowerStr name
  if ["box", "carton", "package", "crate"].any (fun kw => containsSub n kw.data) then "box"
  else if ["pallet", "skid"].any (fun kw => containsSub n kw.data) then "pallet"
  else if ["drum", "barrel", "container"].any (fun kw => containsSub n kw.data) then "drum"
  else if ["rack", "shelf", "frame"].any (fun kw => containsSub n kw.data) then "rack"
  else if ["machinery", "equipment", "machine"].any (fun kw => containsSub n kw.data) then "machinery"
  else if ["hazmat", "chemical", "dangerous"].any (fun kw => containsSub n kw.data) then "hazmat"
  else String.mk ((n.takeWhile (fun c => c ≠ '_')).takeWhile (fun c => c ≠ ' '))

/-! ## Items and ML predictor hints (`ml_predictor.py`) -/

/-- Raw input item record (`name`, dimensions, `quantity`, `weight`).
`weight` defaults to `0` when absent (`item.get('weight', 0)`). -/
structure RawItem where
  name : String
  length : ℚ
  width : ℚ
  height : ℚ
  quantity : ℚ
  weight : ℚ
deriving DecidableEq, Repr

/-- Turnover hint per item name produced by
`calculate_turnover_predictions`. -/
structure TurnoverData where
  predictedTurnover : ℚ
  optimalZone : String
  accessPriority : ℚ
deriving DecidableEq, Repr

/-- `_get_winter_factor`. -/
def getWinterFactor (month : ℕ) : ℚ :=
  if month ∈ [12, 1, 2] then 3/2
  else if month ∈ [3, 4, 10, 11] then 6/5
  else 7/10

/-- `_get_summer_factor`. -/
def getSummerFactor (month : ℕ) : ℚ :=
  if month ∈ [6, 7, 8] then 3/2
  else if month ∈ [5, 9] then 6/5
  else 7/10

/-- `predict_seasonal_demand`: name → seasonal multiplier, keyed by
substring tests on the lowercased name; the current month is an explicit
parameter. -/
def predictSeasonalDemand (month : ℕ) (items : List RawItem) : List (String × ℚ) :=
  items.map fun item =>
    let n := lowerStr item.name
    if containsSub n "seasonal".data || containsSub n "winter".data then
      (item.name, getWinterFactor month)
    else if containsSub n "summer".data then
      (item.name, getSummerFactor month)
    else (item.name, 1)

/-- `calculate_turnover_predictions`: `_get_historical_turnover` always
returns `None` in the source, so the prediction is the size/weight based
`base_turnover`. -/
def calculateTurnoverPredictions (items : List RawItem) : List (String × TurnoverData) :=
  items.map fun item =>
    let itemVolume := item.length * item.width * item.height
    let baseTurnover := max (1/10) (1 - itemVolume / 10 - item.weight / 1000)
    let zone :=
      if baseTurnover > 7/10 then "high_access"
      else if baseTurnover > 2/5 then "medium_access"
      else "low_access"
    (item.name, { predictedTurnover := baseTurnover, optimalZone := zone,
                  accessPriority := baseTurnover })

/-- `predict_optimal_algorithm` with the source's historical store empty
(`_get_similar_scenarios` returns `[]`): fallback rules on volume ratio and
variety; the `try/except` returns `'bin_packing'` when the warehouse volume
is zero (the ratio computation would raise). -/
def predictOptimalAlgorithm (w : Warehouse) (items : List RawItem) : String :=
  if w.volume = 0 then "bin_packing"
  else
    let totalItemVolume :=
      (items.map (fun i => i.length * i.width * i.height * i.quantity)).sum
    let volumeRatio := totalItemVolume / w.volume
    let itemCount := (items.map (·.quantity)).sum
    let itemVariety := (items.map (·.name)).dedup.length
    let avgItemSize := if itemCount > 0 then totalItemVolume / itemCount else 0
    if volumeRatio > 4/5 then "hybrid"
    else if itemVariety > 10 ∧ avgItemSize < w.volume / 100 then "space_filling"
    else "bin_packing"

/-- Item after seasonal adjustment (`_apply_seasonal_adjustments` copies
the record with an integer quantity and the factor). -/
structure AdjItem where
  name : String
  length : ℚ
  width : ℚ
  height : ℚ
  quantity : ℤ
  weight : ℚ
  seasonalFactor : ℚ
deriving DecidableEq, Repr

/-- The quantity computation of `_apply_seasonal_adjustments`:
`max(1, int(original_quantity * seasonal_factor))`. -/
def adjustedQuantity (quantity factor : ℚ) : ℤ :=
  max 1 (pyInt (quantity * factor))

/-- `_apply_seasonal_adjustments`. -/
def applySeasonalAdjustments (items : List RawItem)
    (seasonal : List (String × ℚ)) : List AdjItem :=
  items.map fun item =>
    let factor := (dictFind seasonal item.name).getD 1
    { name := item.name, length := item.length, width := item.width,
      height := item.height,
      quantity := adjustedQuantity item.quantity factor,
      weight := item.weight, seasonalFactor := factor }

/-- One individual unit handled by the placement strategies (a
`processed_item` dict of `_prepare_items_with_ml`).  `idx` is the position
in the processed list; it models Python object identity so that the
in-place mutation of the source can be replayed on the full list. -/
structure Item where
  idx : ℕ
  id : String
  name : String
  length : ℚ
  width : ℚ
  height : ℚ
  volume : ℚ
  weight : ℚ
  placed : Bool
  position : Option (ℚ × ℚ × ℚ)
  rotation : ℕ
  seasonalFactor : ℚ
  turnover : Option TurnoverData
deriving DecidableEq, Repr

/-- `_prepare_items_with_ml`: expand each adjusted item into
`int(quantity)` individual units (the storage-type optimization argument is
the empty dict, matching the default `storage_types=None` call). -/
def expandUnits (adjusted : List AdjItem)
    (turnover : List (String × TurnoverData)) : List Item :=
  adjusted.flatMap fun item =>
    (List.range item.quantity.toNat).map fun i =>
      { idx := 0
        id := item.name ++ "_" ++ toString (i + 1)
        name := item.name
        length := item.length, width := item.width, height := item.height
        volume := item.length * item.width * item.height
        weight := item.weight
        placed := false, position := none, rotation := 0
        seasonalFactor := item.seasonalFactor
        turnover := dictFind turnover item.name : Item }

/-- Assignment of the identity indices to the expanded units. -/
def prepareItemsWithML (adjusted : List AdjItem)
    (turnover : List (String × TurnoverData)) : List Item :=
  (expandUnits adjusted turnover).enum.map fun p => { p.2 with idx := p.1 }

/-! ## Placement strategies (`optimization.py`) -/

/-- Insert `a` after every prefix element that may stay before it
(`le b a`): the insertion step of a stable insertion sort for the total
preorder `le`. -/
def insertPre (le : α → α → Bool) (a : α) : List α → List α
  | [] => [a]
  | b :: l => if le b a then b :: insertPre le a l else a :: b :: l

/-- Stable sort for the total preorder `le`, processing elements in list
order so that ties keep their original relative order — the semantics of
Python's stable `sorted`. -/
def stableSort (le : α → α → Bool) (l : List α) : List α :=
  l.foldl (fun acc a => insertPre le a acc) []

/-- Stable descending sort by a rational key: Python's
`sorted(key=..., reverse=True)` keeps the original order of ties. -/
def sortByDesc (key : α → ℚ) (l : List α) : List α :=
  stableSort (fun a b => key b ≤ key a) l

/-- Stable ascending sort by an integer key: Python's `sorted(key=...)`. -/
def sortByAscInt (key : α → ℤ) (l : List α) : List α :=
  stableSort (fun a b => key a ≤ key b) l

/-- Scan of one orientation in `_find_best_position`: skip the orientation
when it exceeds the warehouse, otherwise try origins in nested ascending
`x`, `y`, `z` order at grid-resolution steps; on success the item's
dimensions and rotation flag are updated iff the tested orientation differs
from the original triple. -/
def tryRotationScan (w : Warehouse) (item : Item) (rl rw rh : ℚ)
    (s : EngineState) : Option ((ℚ × ℚ × ℚ) × Item) :=
  if rl > w.length ∨ rw > w.width ∨ rh > w.height then none
  else
    (arange 0 (w.length - rl + 1/10) gridRes).findSome? fun x =>
      (arange 0 (w.width - rw + 1/10) gridRes).findSome? fun y =>
        (arange 0 (w.height - rh + 1/10) gridRes).findSome? fun z =>
          if canPlaceItemAtPosition w rl rw rh x y z (getObjectType item.name) s then
            some ((x, y, z),
              if (rl, rw, rh) ≠ (item.length, item.width, item.height) then
                { item with rotation := 90, length := rl, width := rw }
              else item)
          else none

/-- `_find_best_position`: original orientation first, then the
length/width swap. -/
def findBestPosition (w : Warehouse) (item : Item) (s : EngineState) :
    Option ((ℚ × ℚ × ℚ) × Item) :=
  (tryRotationScan w item item.length item.width item.height s).orElse fun _ =>
    tryRotationScan w item item.width item.length item.height s

/-- `_mark_space_occupied`: mark the item's voxel range and append the
typed bounds record to the tracker. -/
def markSpaceOccupied (w : Warehouse) (item : Item) (pos : ℚ × ℚ × ℚ)
    (s : EngineState) : EngineState :=
  { grid := s.grid ++ [voxelRange w item.length item.width item.height pos.1 pos.2.1 pos.2.2]
    tracker := s.tracker ++
      [{ type := getObjectType item.name, position := pos,
         bounds := boxBounds item.length item.width item.height pos.1 pos.2.1 pos.2.2 }] }

/-- One iteration of the `_bin_packing_optimization` loop: find a position,
and on success fix the position, mark the grid and record the item. -/
def binPackingStep (w : Warehouse) (acc : List Item × EngineState) (item : Item) :
    List Item × EngineState :=
  match findBestPosition w item acc.2 with
  | some (pos, item') =>
      (acc.1 ++ [{ item' with placed := true, position := some pos }],
       markSpaceOccupied w item' pos acc.2)
  | none => acc

/-- `_bin_packing_optimization`: first-fit decreasing by volume. -/
def binPackingOptimization (w : Warehouse) (items : List Item) (s : EngineState) :
    List Item × EngineState :=
  (sortByDesc (·.volume) items).foldl (binPackingStep w) ([], s)

/-- Bit interleaving for the x coordinate of `_generate_z_order_positions`. -/
def zOrderX (i : ℕ) : ℕ :=
  ((i &&& 0x55555555) <<< 1) ||| ((i &&& 0xAAAAAAAA) >>> 1)

/-- Bit interleaving for the y coordinate of `_generate_z_order_positions`. -/
def zOrderY (i : ℕ) : ℕ :=
  ((i &&& 0x33333333) <<< 2) ||| ((i &&& 0xCCCCCCCC) >>> 2)

/-- `_generate_z_order_positions`: at most 1000 ground-level candidate
origins ordered by the interleaved-bit code. -/
def generateZOrderPositions (w : Warehouse) : List (ℚ × ℚ × ℚ) :=
  (List.range (min 1000 (w.gridLength * w.gridWidth)).toNat).filterMap fun i =>
    let xc := ((zOrderX i % w.gridLength : ℤ) : ℚ) * gridRes
    let yc := ((zOrderY i % w.gridWidth : ℤ) : ℚ) * gridRes
    let zc : ℚ := 0
    if xc < w.length ∧ yc < w.width ∧ zc < w.height then some (xc, yc, zc) else none

/-- `_can_place_item`: feasibility of an item (current dimensions, no
rotation attempt) at a given position. -/
def canPlaceItem (w : Warehouse) (item : Item) (pos : ℚ × ℚ × ℚ)
    (s : EngineState) : Bool :=
  canPlaceItemAtPosition w item.length item.width item.height pos.1 pos.2.1 pos.2.2
    (getObjectType item.name) s

/-- One iteration of the `_space_filling_optimization` loop: first feasible
precomputed Z-order candidate wins. -/
def spaceFillingStep (w : Warehouse) (positions : List (ℚ × ℚ × ℚ))
    (acc : List Item × EngineState) (item : Item) : List Item × EngineState :=
  match positions.findSome? (fun pos =>
      if canPlaceItem w item pos acc.2 then some pos else none) with
  | some pos =>
      (acc.1 ++ [{ item with placed := true, position := some pos }],
       markSpaceOccupied w item pos acc.2)
  | none => acc

/-- `_space_filling_optimization`. -/
def spaceFillingOptimization (w : Warehouse) (items : List Item) (s : EngineState) :
    List Item × EngineState :=
  let positions := generateZOrderPositions w
  (sortByDesc (·.volume) items).foldl (spaceFillingStep w positions) ([], s)

/-- `_hybrid_optimization`: bin packing for items above 1% of the warehouse
volume, then space filling for the rest, on the shared grid state. -/
def hybridOptimization (w : Warehouse) (items : List Item) (s : EngineState) :
    List Item × EngineState :=
  let largeItems := items.filter (fun item => item.volume > w.volume * (1/100))
  let smallItems := items.filter (fun item => !(item.volume > w.volume * (1/100)))
  let (placedLarge, s1) := binPackingOptimization w largeItems s
  let (placedSmall, s2) := spaceFillingOptimization w smallItems s1
  (placedLarge ++ placedSmall, s2)

/-- Access priority used to sort items in `_ml_enhanced_optimization`
(`turnover_prediction.get('access_priority', 0.5)`). -/
def getAccessPriority (item : Item) : ℚ :=
  (item.turnover.map (·.accessPriority)).getD (1/2)

/-- Optimal zone hint (`turnover_data.get('optimal_zone', 'low_access')`). -/
def getOptimalZone (item : Item) : String :=
  (item.turnover.map (·.optimalZone)).getD "low_access"

/-- Search bounds of `_find_position_in_zone`, with the zone rectangles
defined in `_ml_enhanced_optimization`
(`high = (0.3·L, 0.4·W)`, `medium = (0.6·L, 0.8·W)`). -/
def zoneSearchBounds (w : Warehouse) (optimalZone : String) : (ℚ × ℚ) × (ℚ × ℚ) :=
  if optimalZone = "high_access" then
    ((0, w.length * (3/10)), (0, w.width * (2/5)))
  else if optimalZone = "medium_access" then
    ((0, w.length * (3/5)), (w.width * (2/5), w.width * (4/5)))
  else
    ((w.length * (3/5), w.length), (0, w.width))

/-- One orientation scan of `_find_position_in_zone`, restricted to the
zone rectangle (the scan end is additionally capped by the feasible origin
end, as in the source). -/
def tryRotationScanZone (w : Warehouse) (item : Item) (xb yb : ℚ × ℚ)
    (rl rw rh : ℚ) (s : EngineState) : Option ((ℚ × ℚ × ℚ) × Item) :=
  if rl > w.length ∨ rw > w.width ∨ rh > w.height then none
  else
    (arange xb.1 (min xb.2 (w.length - rl + 1/10)) gridRes).findSome? fun x =>
      (arange yb.1 (min yb.2 (w.width - rw + 1/10)) gridRes).findSome? fun y =>
        (arange 0 (w.height - rh + 1/10) gridRes).findSome? fun z =>
          if canPlaceItemAtPosition w rl rw rh x y z (getObjectType item.name) s then
            some ((x, y, z),
              if (rl, rw, rh) ≠ (item.length, item.width, item.height) then
                { item with rotation := 90, length := rl, width := rw }
              else item)
          else none

/-- The zone-restricted part of `_find_position_in_zone` (both
orientations, inside the hinted sub-rectangle). -/
def zoneRestrictedScan (w : Warehouse) (item : Item) (optimalZone : String)
    (s : EngineState) : Option ((ℚ × ℚ × ℚ) × Item) :=
  let b := zoneSearchBounds w optimalZone
  (tryRotationScanZone w item b.1 b.2 item.length item.width item.height s).orElse fun _ =>
    tryRotationScanZone w item b.1 b.2 item.width item.length item.height s

/-- `_find_position_in_zone`: the zone-restricted scan, falling back to the
unrestricted whole-warehouse scan `_find_best_position` when it finds
nothing. -/
def findPositionInZone (w : Warehouse) (item : Item) (optimalZone : String)
    (s : EngineState) : Option ((ℚ × ℚ × ℚ) × Item) :=
  (zoneRestrictedScan w item optimalZone s).orElse fun _ =>
    findBestPosition w item s

/-- One iteration of the `_ml_enhanced_optimization` loop. -/
def mlEnhancedStep (w : Warehouse) (acc : List Item × EngineState) (item : Item) :
    List Item × EngineState :=
  match findPositionInZone w item (getOptimalZone item) acc.2 with
  | some (pos, item') =>
      (acc.1 ++ [{ item' with placed := true, position := some pos }],
       markSpaceOccupied w item' pos acc.2)
  | none => acc

/-- `_ml_enhanced_optimization`: sort by descending access priority, place
each item in its hinted zone with whole-warehouse fallback. -/
def mlEnhancedOptimization (w : Warehouse) (items : List Item) (s : EngineState) :
    List Item × EngineState :=
  (sortByDesc getAccessPriority items).foldl (mlEnhancedStep w) ([], s)

/-- Placement metrics record of `_calculate_metrics`. -/
structure Metrics where
  utilization : ℚ
  efficiency : ℚ
  itemsPlaced : ℕ
  itemsTotal : ℕ
  volumeUsed : ℚ
  volumeTotal : ℚ
deriving DecidableEq, Repr

/-- `_calculate_metrics`: utilization and efficiency percentages.  With an
empty total list the source returns the zero dict (without volume keys;
those are modelled as `0`).  The efficiency denominator is nonzero in its
branch; the utilization divides by the warehouse volume, which can raise. -/
def calculateMetrics (w : Warehouse) (placedItems totalItems : List Item) :
    Except String Metrics :=
  if totalItems = [] then
    .ok { utilization := 0, efficiency := 0, itemsPlaced := 0, itemsTotal := 0,
          volumeUsed := 0, volumeTotal := 0 }
  else
    let placedVolume := (placedItems.map (·.volume)).sum
    match pyDiv placedVolume w.volume with
    | .error e => .error e
    | .ok u =>
      .ok { utilization := pyRound (u * 100) 2
            efficiency := pyRound ((placedItems.length : ℚ) / (totalItems.length : ℚ) * 100) 2
            itemsPlaced := placedItems.length
            itemsTotal := totalItems.length
            volumeUsed := pyRound placedVolume 2
            volumeTotal := pyRound w.volume 2 }

/-! ## Zone model and picking-path planner (`picking_optimizer.py`) -/

/-- One warehouse zone: floor rectangle, priority and access class. -/
structure Zone where
  xMin : ℚ
  xMax : ℚ
  yMin : ℚ
  yMax : ℚ
  priority : ℤ
  accessType : String
deriving DecidableEq, Repr

/-- `_define_warehouse_zones`: the four static zones, in the dict's
insertion order. -/
def zonesTable (w : Warehouse) : List (String × Zone) :=
  [("high_velocity",
    { xMin := 0, xMax := w.length * (3/10), yMin := 0, yMax := w.width * (2/5),
      priority := 1, accessType := "high" }),
   ("medium_velocity",
    { xMin := 0, xMax := w.length * (3/5), yMin := w.width * (2/5), yMax := w.width * (4/5),
      priority := 2, accessType := "medium" }),
   ("low_velocity",
    { xMin := w.length * (3/5), xMax := w.length, yMin := 0, yMax := w.width,
      priority := 3, accessType := "low" }),
   ("bulk_storage",
    { xMin := w.length * (3/10), xMax := w.length * (3/5), yMin := 0, yMax := w.width * (2/5),
      priority := 4, accessType := "bulk" })]

/-- Inclusive containment of a floor point in a zone rectangle. -/
def zoneContains (z : Zone) (x y : ℚ) : Bool :=
  z.xMin ≤ x ∧ x ≤ z.xMax ∧ z.yMin ≤ y ∧ y ≤ z.yMax

/-- Planar coordinates of an item position.  Placed items always carry a
position; the default is never reached on the planner's inputs. -/
def itemXY (item : Item) : ℚ × ℚ :=
  let p := item.position.getD (0, 0, 0)
  (p.1, p.2.1)

/-- `_get_item_zone`: first zone (in table order) whose rectangle contains
the item's floor point, else `"unassigned"`. -/
def getItemZone (w : Warehouse) (item : Item) : String :=
  let p := itemXY item
  (((zonesTable w).find? (fun z => zoneContains z.2 p.1 p.2)).map (·.1)).getD "unassigned"

/-- Zone priority lookup with the default 99 used for zones missing from
the table (`zone_priorities.get(z, 99)` and
`self.zones.get(zone, {}).get('priority', 99)`). -/
def zonePriority (w : Warehouse) (zoneName : String) : ℤ :=
  (((zonesTable w).find? (fun z => z.1 == zoneName)).map (·.2.priority)).getD 99

/-- `_optimize_zone_sequence`: stable ascending sort of the zone names by
priority. -/
def optimizeZoneSequence (w : Warehouse) (zones : List String) : List String :=
  if zones.length ≤ 1 then zones
  else sortByAscInt (zonePriority w) zones

/-- Squared planar distance.  `_calculate_distance` is
`sqrt((x1-x2)^2 + (y1-y2)^2)`; nearest-neighbor selection compares these
distances, which is equivalent to comparing the squares since `sqrt` is
strictly monotone on nonnegatives (see `sqrtDistSq2_lt_iff`). -/
def distSq2 (p q : ℚ × ℚ) : ℚ :=
  (p.1 - q.1) ^ 2 + (p.2 - q.2) ^ 2

/-- Index of the first element of `l` minimizing the squared planar
distance to `cur`: Python's `min(unvisited, key=...)` returns the first
minimal element. -/
def nearestIdx (cur : ℚ × ℚ) (l : List (ℚ × ℚ)) : ℕ :=
  (l.enum.foldl (fun best p =>
      if distSq2 cur p.2 < distSq2 cur best.2 then p else best)
    ((0 : ℕ), l.headD (0, 0))).1

/-- Greedy nearest-neighbor loop of `_nearest_neighbor_path`. -/
def nnAux (cur : Item) (unvisited : List Item) : ℕ → List Item
  | 0 => []
  | n + 1 =>
    match unvisited with
    | [] => []
    | _ =>
      let i := nearestIdx (itemXY cur) (unvisited.map itemXY)
      match unvisited[i]? with
      | none => []
      | some nxt => nxt :: nnAux nxt (unvisited.eraseIdx i) n

/-- `_nearest_neighbor_path`: start at the first item in arrival order and
repeatedly visit the closest unvisited item. -/
def nearestNeighborPath (items : List Item) : List Item :=
  match items with
  | [] => []
  | [x] => [x]
  | first :: rest => first :: nnAux first rest rest.length

/-- First occurrences, in order, of the zones of a list of items: the key
order of the `zone_groups` dict in `_calculate_optimal_path`. -/
def zoneKeysInOrder (w : Warehouse) (items : List Item) : List String :=
  (items.map (getItemZone w)).foldl
    (fun acc z => if z ∈ acc then acc else acc ++ [z]) []

/-- Position triple of an item (placed items always carry one). -/
def itemPos (item : Item) : ℚ × ℚ × ℚ :=
  item.position.getD (0, 0, 0)

/-- Planar projection of a position triple (travel distances ignore `z`). -/
def planar (p : ℚ × ℚ × ℚ) : ℚ × ℚ := (p.1, p.2.1)

/-- `_calculate_distance`: planar Euclidean distance. -/
noncomputable def calcDistance (p q : ℚ × ℚ) : ℝ :=
  Real.sqrt (distSq2 p q)

/-- `_calculate_total_distance`: sum of consecutive waypoint distances. -/
noncomputable def calcTotalDistance (waypoints : List (ℚ × ℚ × ℚ)) : ℝ :=
  if waypoints.length < 2 then 0
  else ((waypoints.zip waypoints.tail).map
    (fun pq => calcDistance (planar pq.1) (planar pq.2))).sum

/-- `_minimum_spanning_tree_distance`: sum of distances from the centroid
of the positions (a deliberately loose lower-bound proxy). -/
noncomputable def minimumSpanningTreeDistance (positions : List (ℚ × ℚ × ℚ)) : ℝ :=
  if positions.length < 2 then 0
  else
    let n : ℚ := positions.length
    let center := ((positions.map (fun p => p.1)).sum / n,
                   (positions.map (fun p => p.2.1)).sum / n)
    (positions.map (fun p => calcDistance center (planar p))).sum

/-- Path data produced by `_calculate_optimal_path`: waypoints, zone
sequence and distance-annotated segments. -/
structure PathData where
  waypoints : List (ℚ × ℚ × ℚ)
  zoneSeq : List String
  segments : List ((ℚ × ℚ × ℚ) × (ℚ × ℚ × ℚ) × ℝ)

/-- `_calculate_optimal_path`: group the items by zone (first-occurrence
key order), order the zones by priority, and sequence each multi-item zone
group by nearest neighbor; waypoints and intra-zone segments are collected
in zone order. -/
noncomputable def calcOptimalPath (w : Warehouse) (itemsToPick : List Item) : PathData :=
  match itemsToPick with
  | [] => { waypoints := [], zoneSeq := [], segments := [] }
  | [it] => { waypoints := [itemPos it], zoneSeq := [getItemZone w it], segments := [] }
  | _ =>
    let zoneSeq := optimizeZoneSequence w (zoneKeysInOrder w itemsToPick)
    let zoneItems := fun zone => itemsToPick.filter (fun it => getItemZone w it == zone)
    { waypoints := zoneSeq.flatMap fun zone =>
        let zi := zoneItems zone
        if zi.length = 1 then zi.map itemPos
        else (nearestNeighborPath zi).map itemPos
      zoneSeq := zoneSeq
      segments := zoneSeq.flatMap fun zone =>
        let zi := zoneItems zone
        if zi.length = 1 then []
        else
          let zp := (nearestNeighborPath zi).map itemPos
          (zp.zip zp.tail).map fun pq =>
            (pq.1, pq.2, calcDistance (planar pq.1) (planar pq.2)) }

/-- `_calculate_picking_time` in minutes (walking speed 1.5 m/s, 15 s per
pick, 10 s per zone transition). -/
noncomputable def calcPickingTime (path : PathData) (itemCount : ℕ) : ℝ :=
  let walkingTime := calcTotalDistance path.waypoints / (3/2)
  let pickingTime := (itemCount : ℝ) * 15
  let transitionTime := ((path.zoneSeq.length : ℝ) - 1) * 10
  (walkingTime + pickingTime + transitionTime) / 60

/-- `_calculate_path_efficiency`: 0 for no items, 100 for fewer than two
positions or a zero lower bound, else the clamped ratio.  (The `ℝ`
division-by-zero case `actual = 0 ∧ minD ≠ 0` is unreachable through the
planner: the waypoints are a permutation of the positions, so a nonzero
centroid bound forces a nonzero actual distance.) -/
noncomputable def calcPathEfficiency (path : PathData) (items : List Item) : ℝ :=
  if items = [] then 0
  else if (items.map itemPos).length < 2 then 100
  else
    let minDistance := minimumSpanningTreeDistance (items.map itemPos)
    let actualDistance := calcTotalDistance path.waypoints
    if minDistance = 0 then 100
    else min 100 (max 0 (minDistance / actualDistance * 100))

/-- Round-half-to-even on `ℝ`, as Python's `round` (idealized). -/
noncomputable def roundHalfEvenR (t : ℝ) : ℤ :=
  if t - ⌊t⌋ < 1/2 then ⌊t⌋
  else if 1/2 < t - ⌊t⌋ then ⌊t⌋ + 1
  else if ⌊t⌋ % 2 = 0 then ⌊t⌋ else ⌊t⌋ + 1

/-- Python `round(t, n)` on `ℝ`. -/
noncomputable def pyRoundR (t : ℝ) (n : ℕ) : ℝ :=
  (roundHalfEvenR (t * 10 ^ n) : ℝ) / 10 ^ n

/-- One entry of the `picking_zones` list of `_organize_by_zones`. -/
structure PickZone where
  zoneName : String
  items : List (String × (ℚ × ℚ × ℚ))
  itemCount : ℕ
  priority : ℤ
deriving DecidableEq, Repr

/-- `_organize_by_zones`: per-zone item lists in first-occurrence zone
order. -/
def organizeByZones (w : Warehouse) (items : List Item) : List PickZone :=
  (zoneKeysInOrder w items).map fun zone =>
    let zi := items.filter (fun it => getItemZone w it == zone)
    { zoneName := zone
      items := zi.map (fun it => (it.name, itemPos it))
      itemCount := zi.length
      priority := zonePriority w zone }

/-- The eligible units of `optimize_picking_path`: a falsy pick list
(`None` or `[]`) defaults to every placed unit's name, then units are
filtered by name membership. -/
def eligibleItems (placed : List Item) (pickList : Option (List String)) : List Item :=
  let names : List String := match pickList with
    | none => placed.map (fun it => it.name)
    | some l => if l = [] then placed.map (fun it => it.name) else l
  placed.filter (fun it => it.name ∈ names)

/-- Result record of `optimize_picking_path`. -/
structure PickResult where
  pathData : PathData
  totalDistance : ℝ
  estimatedTime : ℝ
  pathEfficiency : ℝ
  pickingZones : List PickZone
  zoneSequence : List String
  itemsToPick : ℕ
  waypoints : List (ℚ × ℚ × ℚ)

/-- `_empty_path_result`. -/
noncomputable def emptyPathResult : PickResult :=
  { pathData := { waypoints := [], zoneSeq := [], segments := [] }
    totalDistance := 0, estimatedTime := 0, pathEfficiency := 0
    pickingZones := [], zoneSequence := [], itemsToPick := 0, waypoints := [] }

/-- `optimize_picking_path`. -/
noncomputable def optimizePickingPath (w : Warehouse) (placed : List Item)
    (pickList : Option (List String)) : PickResult :=
  let itemsToPick := eligibleItems placed pickList
  if itemsToPick = [] then emptyPathResult
  else
    let optimalPath := calcOptimalPath w itemsToPick
    { pathData := optimalPath
      totalDistance := pyRoundR (calcTotalDistance optimalPath.waypoints) 2
      estimatedTime := pyRoundR (calcPickingTime optimalPath itemsToPick.length) 2
      pathEfficiency := pyRoundR (calcPathEfficiency optimalPath itemsToPick) 2
      pickingZones := organizeByZones w itemsToPick
      zoneSequence := optimalPath.zoneSeq
      itemsToPick := itemsToPick.length
      waypoints := optimalPath.waypoints }

/-! ## Workflow analyzer (`picking_optimizer.py`) -/

/-- `_get_items_in_zone`: inclusive bounds filter on floor coordinates. -/
def itemsInZone (placed : List Item) (z : Zone) : List Item :=
  placed.filter fun it =>
    let p := itemXY it
    zoneContains z p.1 p.2

/-- `_calculate_zone_area`. -/
def zoneArea (z : Zone) : ℚ :=
  (z.xMax - z.xMin) * (z.yMax - z.yMin)

/-- Access type of a zone name (`self.zones.get(zone, {}).get('access_type')`). -/
def zoneAccessType (w : Warehouse) (zoneName : String) : Option String :=
  (((zonesTable w).find? (fun z => z.1 == zoneName)).map (·.2.accessType))

/-- Population mean of a list of rationals (`np.mean`). -/
def listMean (l : List ℚ) : ℚ := l.sum / l.length

/-- Population variance of a list of rationals (`np.var`). -/
def listVar (l : List ℚ) : ℚ :=
  ((l.map (fun v => (v - listMean l) ^ 2)).sum) / l.length

/-- Layout efficiency record of `_analyze_layout_efficiency`. -/
structure LayoutEfficiency where
  overall : ℚ
  zoneBalance : ℚ
  accessibility : ℚ
deriving DecidableEq, Repr

/-- `_analyze_layout_efficiency`.  The two divisions (`variance / mean` and
`high_access_items / len(placed_items)`) are reached only with a nonempty
placed list, where both denominators are provably nonzero, so they are
modelled by total division. -/
def analyzeLayoutEfficiency (w : Warehouse) (placed : List Item) : LayoutEfficiency :=
  if placed = [] then { overall := 0, zoneBalance := 0, accessibility := 0 }
  else
    let keys := zoneKeysInOrder w placed
    let values := keys.map fun z =>
      ((placed.filter (fun it => getItemZone w it == z)).length : ℚ)
    let balanceScore :=
      if keys.length > 1 then max 0 (100 - listVar values / listMean values * 10)
      else 50
    let highAccessItems :=
      (placed.filter (fun it => zoneAccessType w (getItemZone w it) == some "high")).length
    let accessibilityScore := (highAccessItems : ℚ) / (placed.length : ℚ) * 100
    { overall := pyRound ((balanceScore + accessibilityScore) / 2) 2
      zoneBalance := pyRound balanceScore 2
      accessibility := pyRound accessibilityScore 2 }

/-- Picking density record of `_calculate_picking_density`. -/
structure PickingDensity where
  overallDensity : ℚ
  zoneDensities : List (String × ℚ)
  densityVariance : ℚ
deriving DecidableEq, Repr

/-- `_calculate_picking_density`: divides by the total floor area and by
each zone's area; both raise on a degenerate (zero-area) warehouse. -/
def calculatePickingDensity (w : Warehouse) (placed : List Item) :
    Except String PickingDensity :=
  match pyDiv (placed.length : ℚ) (w.length * w.width) with
  | .error e => .error e
  | .ok itemDensity =>
    match (zonesTable w).mapM (fun z =>
        (pyDiv ((itemsInZone placed z.2).length : ℚ) (zoneArea z.2)).map
          (fun d => (z.1, d))) with
    | .error e => .error e
    | .ok zoneDensities =>
      .ok { overallDensity := pyRound itemDensity 4
            zoneDensities := zoneDensities.map (fun p => (p.1, pyRound p.2 4))
            densityVariance := pyRound (listVar (zoneDensities.map (·.2))) 4 }

/-- Per-zone traffic entry: name, rounded traffic score, congestion risk. -/
structure ZoneTraffic where
  zoneName : String
  trafficScore : ℚ
  congestionRisk : String
deriving DecidableEq, Repr

/-- Traffic analysis record of `_estimate_traffic_patterns`. -/
structure TrafficAnalysis where
  zoneTraffic : List ZoneTraffic
  peakZones : List String
deriving DecidableEq, Repr

/-- `_estimate_traffic_patterns`: per static zone, traffic is the item
count divided by the zone priority; `peak_zones` is the three
highest-traffic zone names (stable descending sort of the four static
zones by their stored, rounded traffic score, then `[:3]`). -/
def estimateTrafficPatterns (w : Warehouse) (placed : List Item) : TrafficAnalysis :=
  let entries := (zonesTable w).map fun z =>
    let baseTraffic := ((itemsInZone placed z.2).length : ℚ)
    let score := baseTraffic * (1 / (z.2.priority : ℚ))
    ({ zoneName := z.1, trafficScore := pyRound score 2
       congestionRisk :=
         if score > 10 then "high" else if score > 5 then "medium" else "low" } : ZoneTraffic)
  { zoneTraffic := entries
    peakZones := ((sortByDesc (·.trafficScore) entries).map (·.zoneName)).take 3 }

/-- One bottleneck record of `_identify_bottlenecks`.  The human-readable
`description` string (which interpolates a formatted float) is omitted; its
underlying density value is kept. -/
structure Bottleneck where
  btype : String
  location : String
  severity : String
  densityValue : ℚ
  itemsAffected : ℕ
deriving DecidableEq, Repr

/-- `_identify_bottlenecks`: flag zones whose density exceeds 0.3 and a
narrow-warehouse flag when the width is below 6. -/
def identifyBottlenecks (w : Warehouse) (placed : List Item) :
    Except String (List Bottleneck) :=
  match (zonesTable w).mapM (fun z =>
      let zi := itemsInZone placed z.2
      if 0 < zi.length then
        (pyDiv (zi.length : ℚ) (zoneArea z.2)).map fun density =>
          if density > 3/10 then
            [{ btype := "high_density", location := z.1
               severity := if density > 1/2 then "high" else "medium"
               densityValue := density, itemsAffected := zi.length : Bottleneck }]
          else []
      else .ok []) with
  | .error e => .error e
  | .ok perZone =>
    .ok (perZone.flatten ++
      (if w.width < 6 then
        [{ btype := "narrow_aisle", location := "warehouse_layout"
           severity := "medium", densityValue := 0
           itemsAffected := placed.length : Bottleneck }]
       else []))

/-- The traffic component of `_calculate_overall_efficiency_score`:
`max(0, 100 - len(peak_zones) * 20)`. -/
def trafficComponent (traffic : TrafficAnalysis) : ℚ :=
  max 0 (100 - (traffic.peakZones.length : ℚ) * 20)

/-- `_calculate_overall_efficiency_score`: weighted blend of the layout
score, the density deviation score and the traffic component. -/
def calculateOverallEfficiencyScore (layout : LayoutEfficiency)
    (density : PickingDensity) (traffic : TrafficAnalysis) : ℚ :=
  let layoutScore := layout.overall
  let densityScore := max 0 (100 - |density.overallDensity - 3/20| * 500)
  let trafficScore := trafficComponent traffic
  pyRound (layoutScore * (2/5) + densityScore * (3/10) + trafficScore * (3/10)) 2

/-- `_generate_improvement_suggestions`.  The bottleneck suggestion text
drops the omitted formatted description and keeps the bottleneck type. -/
def generateImprovementSuggestions (layout : LayoutEfficiency)
    (traffic : TrafficAnalysis) (bottlenecks : List Bottleneck) : List String :=
  let s :=
    (if layout.zoneBalance < 70 then
      ["Rebalance item distribution across zones for better efficiency"] else []) ++
    (if layout.accessibility < 60 then
      ["Move frequently accessed items to high-access zones"] else []) ++
    (if traffic.peakZones.length > 2 then
      ["Consider redistributing items to reduce traffic congestion"] else []) ++
    (bottlenecks.filter (fun b => b.severity == "high")).map
      (fun b => "Address " ++ b.btype)
  if s = [] then ["Current layout is well optimized"] else s

/-- Workflow efficiency report of `calculate_workflow_efficiency`. -/
structure WorkflowReport where
  layoutEfficiency : LayoutEfficiency
  pickingDensity : PickingDensity
  trafficAnalysis : TrafficAnalysis
  bottlenecks : List Bottleneck
  overallScore : ℚ
  improvementSuggestions : List String
deriving DecidableEq, Repr

/-- `calculate_workflow_efficiency`. -/
def calculateWorkflowEfficiency (w : Warehouse) (placed : List Item) :
    Except String WorkflowReport :=
  let layout := analyzeLayoutEfficiency w placed
  match calculatePickingDensity w placed with
  | .error e => .error e
  | .ok density =>
    let traffic := estimateTrafficPatterns w placed
    match identifyBottlenecks w placed with
    | .error e => .error e
    | .ok bottlenecks =>
      .ok { layoutEfficiency := layout
            pickingDensity := density
            trafficAnalysis := traffic
            bottlenecks := bottlenecks
            overallScore := calculateOverallEfficiencyScore layout density traffic
            improvementSuggestions :=
              generateImprovementSuggestions layout traffic bottlenecks }

/-! ## Zone layout analysis (`optimize_zone_layout`) -/

/-- `_calculate_access_points`: one access point per 10 m of perimeter. -/
def calculateAccessPoints (z : Zone) : ℤ :=
  max 1 (pyInt ((2 * (z.xMax - z.xMin) + 2 * (z.yMax - z.yMin)) / 10))

/-- `_estimate_zone_picking_time` (minutes; 5 m assumed average in-zone
hop). -/
def estimateZonePickingTime (items : List Item) : ℚ :=
  if items = [] then 0
  else
    let baseTime := (items.length : ℚ) * 15
    let movementTime :=
      if items.length > 1 then ((items.length : ℚ) - 1) * (5 / (3/2)) else 0
    (baseTime + movementTime) / 60

/-- One `zone_analysis` entry of `optimize_zone_layout`. -/
structure ZoneAnalysisEntry where
  zoneName : String
  itemCount : ℕ
  density : ℚ
  accessPoints : ℤ
  avgPickingTime : ℚ
  items : List String
deriving DecidableEq, Repr

/-- `_generate_zone_recommendations`. -/
def generateZoneRecommendations (analysis : List ZoneAnalysisEntry) : List String :=
  analysis.flatMap fun entry =>
    (if entry.density > 1/2 then
      ["High item density in " ++ entry.zoneName ++ ". Consider expanding or reorganizing."]
     else []) ++
    (if entry.avgPickingTime > 10 then
      ["Long picking time in " ++ entry.zoneName ++ ". Consider better organization."]
     else [])

/-- `_calculate_optimal_flow`: zones by descending `count / priority`. -/
def calculateOptimalFlow (w : Warehouse) (analysis : List ZoneAnalysisEntry) : List String :=
  (sortByDesc (fun entry => (entry.itemCount : ℚ) / (zonePriority w entry.zoneName : ℚ))
    analysis).map (·.zoneName)

/-- Result record of `optimize_zone_layout`. -/
structure ZoneLayoutReport where
  zoneAnalysis : List ZoneAnalysisEntry
  recommendations : List String
  totalZones : ℕ
  optimalFlow : List String
deriving DecidableEq, Repr

/-- `optimize_zone_layout`. -/
def optimizeZoneLayout (w : Warehouse) (placed : List Item) :
    Except String ZoneLayoutReport :=
  match (zonesTable w).mapM (fun z =>
      let zi := itemsInZone placed z.2
      (pyDiv (zi.length : ℚ) (zoneArea z.2)).map fun density =>
        ({ zoneName := z.1, itemCount := zi.length, density := density
           accessPoints := calculateAccessPoints z.2
           avgPickingTime := estimateZonePickingTime zi
           items := zi.map (fun it => it.name) } : ZoneAnalysisEntry)) with
  | .error e => .error e
  | .ok analysis =>
    .ok { zoneAnalysis := analysis
          recommendations := generateZoneRecommendations analysis
          totalZones := (zonesTable w).length
          optimalFlow := calculateOptimalFlow w analysis }

/-! ## The `optimize` entry point (`WarehouseOptimizer.optimize`) -/

/-- The algorithm dispatch of `optimize` (lines 73-82): run the selected
strategy or raise `ValueError(f"Unknown algorithm: ...")` carrying the
unknown name. -/
def runAlgorithm (w : Warehouse) (algo : String) (items : List Item)
    (s : EngineState) : Except String (List Item × EngineState) :=
  if algo = "bin_packing" then .ok (binPackingOptimization w items s)
  else if algo = "space_filling" then .ok (spaceFillingOptimization w items s)
  else if algo = "hybrid" then .ok (hybridOptimization w items s)
  else if algo = "ml_enhanced" then .ok (mlEnhancedOptimization w items s)
  else .error ("Unknown algorithm: " ++ algo)

/-- Replay of the source's in-place mutation: the processed list with each
placed unit replaced by its updated copy (matched by the identity index). -/
def updatedAllItems (processed placed : List Item) : List Item :=
  processed.map fun it => ((placed.find? (fun p => p.idx == it.idx)).getD it)

/-- Full optimization result of `optimize` (via
`_prepare_enhanced_result`). -/
structure OptResult where
  algorithm : String
  metrics : Metrics
  placedItems : List Item
  unplacedItems : List Item
  picking : PickResult
  workflow : WorkflowReport
  zoneLayout : ZoneLayoutReport

/-- `WarehouseOptimizer.optimize` for the default `storage_types=None`
call: reset the per-run state, resolve `'auto'` through the predictor when
ML is enabled, apply seasonal adjustment and unit expansion, dispatch the
strategy, then run the picking, workflow and zone analyses and assemble
the result.  A raised Python exception is `.error`; `month` stands for
`datetime.now().month`. -/
noncomputable def optimize (month : ℕ) (w : Warehouse) (s : EngineState)
    (items : List RawItem) (algorithm : String) (useMlPrediction : Bool) :
    Except String OptResult :=
  let s0 := resetForRun s
  let algo := if useMlPrediction ∧ algorithm = "auto" then
      predictOptimalAlgorithm w items
    else algorithm
  let seasonal := predictSeasonalDemand month items
  let turnover := calculateTurnoverPredictions items
  let adjusted := applySeasonalAdjustments items seasonal
  let processed := prepareItemsWithML adjusted turnover
  match runAlgorithm w algo processed s0 with
  | .error e => .error e
  | .ok (placed, _sFin) =>
    let picking := optimizePickingPath w placed none
    match calculateWorkflowEfficiency w placed with
    | .error e => .error e
    | .ok workflow =>
      match optimizeZoneLayout w placed with
      | .error e => .error e
      | .ok zoneLayout =>
        match calculateMetrics w placed processed with
        | .error e => .error e
        | .ok metrics =>
          .ok { algorithm := algo
                metrics := metrics
                placedItems := placed
                unplacedItems :=
                  (updatedAllItems processed placed).filter (fun it => !it.placed)
                picking := picking
                workflow := workflow
                zoneLayout := zoneLayout }

/-! ## Predicates and concrete inputs used by the verification -/

/-- The clearance relation between two tracker records: same type tag, or
box-to-box distance at least the threshold (stated on squares:
`dist ≥ 1 ↔ distSq ≥ 1^2`). -/
def pairClear (a b : PlacedRec) : Prop :=
  a.type = b.type ∨ typeDistanceConstraint ^ 2 ≤ distSq a.bounds b.bounds

instance (a b : PlacedRec) : Decidable (pairClear a b) :=
  inferInstanceAs (Decidable (_ ∨ _))

/-- The claimed data-model invariant: every pair of tracker records of
different type tags is at clearance distance. -/
def ClearanceInvariant (t : List PlacedRec) : Prop :=
  t.Pairwise pairClear

instance (t : List PlacedRec) : Decidable (ClearanceInvariant t) :=
  inferInstanceAs (Decidable (t.Pairwise _))

/-- Membership of a voxel index triple in a voxel range. -/
def inVoxRange (r : VoxRange) (i j k : ℤ) : Prop :=
  r.xs ≤ i ∧ i < r.xe ∧ r.ys ≤ j ∧ j < r.ye ∧ r.zs ≤ k ∧ k < r.ze

instance (r : VoxRange) (i j k : ℤ) : Decidable (inVoxRange r i j k) :=
  inferInstanceAs (Decidable (_ ∧ _))

/-- Definition following the words of claim C4 (for comparison with the
code): `max(0, 100 − 20·n)` where `n` counts the zones whose per-zone
traffic value (item count divided by zone priority) exceeds the source's
high-congestion threshold 10. -/
def claimedTrafficScore (w : Warehouse) (placed : List Item) : ℚ :=
  let n := ((zonesTable w).filter (fun z =>
    ((itemsInZone placed z.2).length : ℚ) * (1 / (z.2.priority : ℚ)) > 10)).length
  max 0 (100 - 20 * (n : ℚ))

/-- The 10 × 5 × 3 warehouse of the spec's Scenario A. -/
def w10 : Warehouse := ⟨10, 5, 3⟩

/-- A degenerate warehouse with zero length. -/
def wDeg : Warehouse := ⟨0, 5, 3⟩

/-- A 1 × 1 × 1 warehouse (too small for a 2 × 2 × 2 unit). -/
def wTiny : Warehouse := ⟨1, 1, 1⟩

/-- The raw item of Scenario A: one 2 × 2 × 2 unit. -/
def rawScenarioA : RawItem := ⟨"item", 2, 2, 2, 1, 0⟩

/-- Scenario A's processed unit list, produced by the `optimize` pipeline
stages. -/
def processedScenarioA : List Item :=
  prepareItemsWithML
    (applySeasonalAdjustments [rawScenarioA] (predictSeasonalDemand 1 [rawScenarioA]))
    (calculateTurnoverPredictions [rawScenarioA])

/-- A 1 × 1 × 1 unit named `"box"` (type tag `"box"`). -/
def itemBoxUnit : Item :=
  { idx := 0, id := "box_1", name := "box", length := 1, width := 1, height := 1,
    volume := 1, weight := 0, placed := false, position := none, rotation := 0,
    seasonalFactor := 1, turnover := none }

/-- A 1 × 1 × 1 unit named `"_x"`: its derived type tag is the empty
string, so the clearance check is skipped for it. -/
def itemEmptyTypeUnit : Item :=
  { idx := 1, id := "_x_1", name := "_x", length := 1, width := 1, height := 1,
    volume := 1, weight := 0, placed := false, position := none, rotation := 0,
    seasonalFactor := 1, turnover := none }

/-- A 2 × 2 × 2 unit, oversize for `wTiny`. -/
def itemOversize : Item :=
  { idx := 0, id := "big_1", name := "big", length := 2, width := 2, height := 2,
    volume := 8, weight := 0, placed := false, position := none, rotation := 0,
    seasonalFactor := 1, turnover := none }

/-- A placed unit named `"a"` at the origin. -/
def placedUnitA : Item :=
  { idx := 0, id := "a_1", name := "a", length := 1, width := 1, height := 1,
    volume := 1, weight := 0, placed := true, position := some (0, 0, 0), rotation := 0,
    seasonalFactor := 1, turnover := none }

/-- The adjusted record produced for `rawScenarioA` under empty seasonal
predictions. -/
def adjScenarioA : AdjItem := ⟨"item", 2, 2, 2, 1, 0, 1⟩

/-! ## Auxiliary lemmas -/

theorem length_insertPre (le : α → α → Bool) (a : α) (l : List α) :
    (insertPre le a l).length = l.length + 1 := by
  induction l with
  | nil => rfl
  | cons b t ih =>
    unfold insertPre
    split
    · simp [ih]
    · simp

theorem length_stableSort (le : α → α → Bool) (l : List α) :
    (stableSort le l).length = l.length := by
  suffices h : ∀ acc : List α,
      (l.foldl (fun acc a => insertPre le a acc) acc).length = acc.length + l.length by
    simpa using h []
  induction l with
  | nil => intro acc; simp
  | cons b t ih =>
    intro acc
    simp only [List.foldl_cons]
    rw [ih, length_insertPre, List.length_cons]
    omega

theorem mem_insertPre (le : α → α → Bool) (a x : α) (l : List α) :
    x ∈ insertPre le a l ↔ x = a ∨ x ∈ l := by
  induction l with
  | nil => simp [insertPre]
  | cons b t ih =>
    unfold insertPre
    split
    · simp only [List.mem_cons, ih]
      tauto
    · simp [List.mem_cons]

theorem mem_stableSort (le : α → α → Bool) (x : α) (l : List α) :
    x ∈ stableSort le l ↔ x ∈ l := by
  suffices h : ∀ acc : List α,
      (x ∈ l.foldl (fun acc a => insertPre le a acc) acc ↔ x ∈ acc ∨ x ∈ l) by
    simpa using h []
  induction l with
  | nil => intro acc; simp
  | cons b t ih =>
    intro acc
    simp only [List.foldl_cons]
    rw [ih, mem_insertPre]
    simp only [List.mem_cons]
    tauto

theorem distSq_comm (a b : Bounds) : distSq a b = distSq b a := by
  unfold distSq
  rw [max_comm (a.xmin - b.xmax) (b.xmin - a.xmax),
      max_comm (a.ymin - b.ymax) (b.ymin - a.ymax),
      max_comm (a.zmin - b.zmax) (b.zmin - a.zmax)]

theorem pyInt_nonneg {q : ℚ} (h : 0 ≤ q) : 0 ≤ pyInt q := by
  unfold pyInt
  rw [if_pos h]
  exact Int.floor_nonneg.mpr h

theorem canPlace_clearance {w : Warehouse} {len wid hgt x y z : ℚ} {t : String}
    {s : EngineState}
    (hcan : canPlaceItemAtPosition w len wid hgt x y z t s = true) (ht : t ≠ "") :
    ∀ p ∈ s.tracker,
      t = p.type ∨ typeDistanceConstraint ^ 2 ≤ distSq (boxBounds len wid hgt x y z) p.bounds := by
  intro p hp
  unfold canPlaceItemAtPosition at hcan
  by_cases hb : boundsExceeded w (voxelRange w len wid hgt x y z) = true
  · rw [if_pos hb] at hcan
    exact absurd hcan (by simp)
  · rw [if_neg hb] at hcan
    by_cases hg : s.grid.any (rangesOverlap (voxelRange w len wid hgt x y z)) = true
    · rw [if_pos hg] at hcan
      exact absurd hcan (by simp)
    · rw [if_neg hg] at hcan
      have hcond : t ≠ "" ∧ s.tracker ≠ [] :=
        ⟨ht, by
          intro hnil
          rw [hnil] at hp
          exact absurd hp (List.not_mem_nil p)⟩
      rw [if_pos hcond] at hcan
      unfold checkTypeDistanceConstraint at hcan
      have hall := List.all_eq_true.mp hcan p hp
      rcases Bool.or_eq_true_iff.mp hall with h1 | h1
      · left
        exact eq_of_beq h1
      · right
        have h2 : decide (distSq (boxBounds len wid hgt x y z) p.bounds <
            typeDistanceConstraint ^ 2) = false := Bool.not_eq_true' .. |>.mp h1
        exact not_lt.mp (of_decide_eq_false h2)

theorem none_orElse' (f : Unit → Option α) : Option.orElse none f = f () := rfl

theorem tryRotationScan_oversize {w : Warehouse} {item : Item} {rl rw' rh : ℚ}
    {s : EngineState} (h : rl > w.length ∨ rw' > w.width ∨ rh > w.height) :
    tryRotationScan w item rl rw' rh s = none := by
  unfold tryRotationScan
  rw [if_pos h]

theorem findBestPosition_degenerate {w : Warehouse} {item : Item} {s : EngineState}
    (hl : 0 < item.length) (hw : 0 < item.width)
    (hdeg : w.length = 0 ∨ w.width = 0) :
    findBestPosition w item s = none := by
  unfold findBestPosition
  rcases hdeg with h | h
  · rw [tryRotationScan_oversize (Or.inl (by rw [h]; exact hl)), none_orElse',
      tryRotationScan_oversize (Or.inl (by rw [h]; exact hw))]
  · rw [tryRotationScan_oversize (Or.inr (Or.inl (by rw [h]; exact hw))), none_orElse',
      tryRotationScan_oversize (Or.inr (Or.inl (by rw [h]; exact hl)))]

theorem foldl_binPackingStep_id {w : Warehouse} :
    ∀ (l : List Item) (acc : List Item × EngineState),
      (∀ it ∈ l, ∀ s' : EngineState, findBestPosition w it s' = none) →
      l.foldl (binPackingStep w) acc = acc
  | [], _, _ => rfl
  | b :: t, acc, hb => by
    simp only [List.foldl_cons]
    have hstep : binPackingStep w acc b = acc := by
      unfold binPackingStep
      rw [hb b (by simp) acc.2]
    rw [hstep]
    exact foldl_binPackingStep_id t acc (fun it hit s' => hb it (by simp [hit]) s')

theorem binPacking_no_placement {w : Warehouse} {items : List Item} {s : EngineState}
    (h : ∀ it ∈ items, ∀ s' : EngineState, findBestPosition w it s' = none) :
    binPackingOptimization w items s = ([], s) := by
  unfold binPackingOptimization
  exact foldl_binPackingStep_id _ _
    (fun it hit => h it ((mem_stableSort _ _ _).mp hit))

theorem prepared_dims {items : List RawItem} {seasonal : List (String × ℚ)}
    {turnover : List (String × TurnoverData)}
    (h : ∀ r ∈ items, 0 < r.length ∧ 0 < r.width) :
    ∀ it ∈ prepareItemsWithML (applySeasonalAdjustments items seasonal) turnover,
      0 < it.length ∧ 0 < it.width := by
  intro it hit
  unfold prepareItemsWithML at hit
  simp only [List.mem_map] at hit
  obtain ⟨⟨i, u⟩, hp, rfl⟩ := hit
  have hu := List.mem_enum hp
  have humem : u ∈ expandUnits (applySeasonalAdjustments items seasonal) turnover := by
    rw [hu.2]
    exact List.getElem_mem _
  unfold expandUnits at humem
  simp only [List.mem_flatMap, List.mem_map, List.mem_range] at humem
  obtain ⟨a, ha, ⟨j, _, rfl⟩⟩ := humem
  unfold applySeasonalAdjustments at ha
  simp only [List.mem_map] at ha
  obtain ⟨r, hr, rfl⟩ := ha
  simpa using h r hr

end WarePathAI

namespace WarePathAI

/-- C1 (amended): every placement step of every strategy — the guard
`canPlaceItemAtPosition` followed by `markSpaceOccupied`, the only way any
strategy places a unit — preserves the pairwise inter-type clearance
invariant, provided the placing unit's derived type tag is nonempty.  (The
amendment is forced by the counterexample: when the type tag is the empty
string, the source skips the clearance check entirely.) -/
theorem C1_clearance_preserved (w : Warehouse) (item : Item) (pos : ℚ × ℚ × ℚ)
    (s : EngineState)
    (htype : getObjectType item.name ≠ "")
    (hinv : ClearanceInvariant s.tracker)
    (hcan : canPlaceItemAtPosition w item.length item.width item.height
      pos.1 pos.2.1 pos.2.2 (getObjectType item.name) s = true) :
    ClearanceInvariant (markSpaceOccupied w item pos s).tracker := by
  have hall := canPlace_clearance hcan htype
  unfold markSpaceOccupied ClearanceInvariant
  rw [List.pairwise_append]
  refine ⟨hinv, by simp, ?_⟩
  intro a ha b hb
  simp only [List.mem_singleton] at hb
  subst hb
  unfold pairClear
  rcases hall a ha with h | h
  · left
    exact h.symm
  · right
    rw [distSq_comm]
    exact h

unseal Rat.add Rat.mul Rat.sub Rat.inv in
theorem C1_clearance_preserved_witness :
    ClearanceInvariant (markSpaceOccupied w10 itemBoxUnit (0, 0, 0) ⟨[], []⟩).tracker :=
  C1_clearance_preserved w10 itemBoxUnit (0, 0, 0) ⟨[], []⟩ (by decide) (by decide) (by decide)

unseal Rat.add Rat.mul Rat.sub Rat.inv in
theorem C1_clearance_cex :
    ¬ ClearanceInvariant
        ((binPackingOptimization w10 [itemBoxUnit, itemEmptyTypeUnit] ⟨[], []⟩).2.tracker) ∧
    ((binPackingOptimization w10 [itemBoxUnit, itemEmptyTypeUnit] ⟨[], []⟩).2.tracker.map
      (fun r => r.type)) = ["box", ""] := by
  decide

/-- C2 (amended): the converted voxel end indices are clamped with `min`
to the grid extents before the explicit bounds test, so the test can never
fire, and the voxel range used for checking and marking always lies within
the grid extents (for the nonnegative origin coordinates every strategy
produces).  (The amendment is forced by the counterexample: an oversize box
is clamped and accepted, not rejected.) -/
theorem C2_voxel_ranges_clamped (w : Warehouse) (len wid hgt x y z : ℚ) :
    boundsExceeded w (voxelRange w len wid hgt x y z) = false ∧
    (0 ≤ x → 0 ≤ y → 0 ≤ z →
      ∀ i j k : ℤ, inVoxRange (voxelRange w len wid hgt x y z) i j k →
        (0 ≤ i ∧ i < w.gridLength) ∧ (0 ≤ j ∧ j < w.gridWidth) ∧
        (0 ≤ k ∧ k < w.gridHeight)) := by
  constructor
  · simp only [boundsExceeded, voxelRange, decide_eq_false_iff_not, not_or, not_lt]
    exact ⟨min_le_right _ _, min_le_right _ _, min_le_right _ _⟩
  · intro hx hy hz i j k hin
    obtain ⟨h1, h2, h3, h4, h5, h6⟩ := hin
    have hres : (0:ℚ) < gridRes := by norm_num [gridRes]
    refine ⟨⟨?_, ?_⟩, ⟨?_, ?_⟩, ⟨?_, ?_⟩⟩
    · exact le_trans (pyInt_nonneg (div_nonneg hx hres.le)) h1
    · exact lt_of_lt_of_le h2 (min_le_right _ _)
    · exact le_trans (pyInt_nonneg (div_nonneg hy hres.le)) h3
    · exact lt_of_lt_of_le h4 (min_le_right _ _)
    · exact le_trans (pyInt_nonneg (div_nonneg hz hres.le)) h5
    · exact lt_of_lt_of_le h6 (min_le_right _ _)

unseal Rat.add Rat.mul Rat.sub Rat.inv in
theorem C2_voxel_ranges_clamped_witness :
    (0 ≤ (0:ℤ) ∧ (0:ℤ) < w10.gridLength) ∧ (0 ≤ (0:ℤ) ∧ (0:ℤ) < w10.gridWidth) ∧
      (0 ≤ (0:ℤ) ∧ (0:ℤ) < w10.gridHeight) :=
  (C2_voxel_ranges_clamped w10 2 2 2 0 0 0).2 (by norm_num) (by norm_num) (by norm_num)
    0 0 0 (by decide)

unseal Rat.add Rat.mul Rat.sub Rat.inv in
theorem C2_oversize_box_accepted_cex :
    canPlaceItemAtPosition w10 100 1 1 0 0 0 "box" ⟨[], []⟩ = true ∧
    w10.gridLength < pyInt ((0 + 100) / gridRes) := by
  decide

end WarePathAI

namespace WarePathAI

/-- C3 (amended): on a warehouse with a zero-length or zero-width floor,
the bin-packing placement pass itself completes and places no unit (every
unit stays unplaced), but the full `optimize` call does not complete: the
workflow analysis divides the placed-unit count by the zero floor area and
raises `ZeroDivisionError`. -/
theorem C3_degenerate_corrected (month : ℕ) (w : Warehouse) (s : EngineState)
    (items : List RawItem) (useMl : Bool)
    (hdeg : w.length = 0 ∨ w.width = 0)
    (hpos : ∀ r ∈ items, 0 < r.length ∧ 0 < r.width) :
    runAlgorithm w "bin_packing"
      (prepareItemsWithML (applySeasonalAdjustments items (predictSeasonalDemand month items))
        (calculateTurnoverPredictions items)) (resetForRun s) = .ok ([], resetForRun s) ∧
    optimize month w s items "bin_packing" useMl = .error "division by zero" := by
  have hdims := @prepared_dims items (predictSeasonalDemand month items)
    (calculateTurnoverPredictions items) hpos
  have hplace : binPackingOptimization w
      (prepareItemsWithML (applySeasonalAdjustments items (predictSeasonalDemand month items))
        (calculateTurnoverPredictions items)) (resetForRun s) = ([], resetForRun s) :=
    binPacking_no_placement (fun it hit _s' =>
      findBestPosition_degenerate (hdims it hit).1 (hdims it hit).2 hdeg)
  have hrun : runAlgorithm w "bin_packing"
      (prepareItemsWithML (applySeasonalAdjustments items (predictSeasonalDemand month items))
        (calculateTurnoverPredictions items)) (resetForRun s) = .ok ([], resetForRun s) := by
    unfold runAlgorithm
    rw [if_pos rfl, hplace]
  refine ⟨hrun, ?_⟩
  have harea : w.length * w.width = 0 := by
    rcases hdeg with h | h <;> rw [h] <;> ring
  have hpd : calculatePickingDensity w [] = .error "division by zero" := by
    unfold calculatePickingDensity pyDiv
    rw [if_pos harea]
  have hwf : calculateWorkflowEfficiency w [] = .error "division by zero" := by
    unfold calculateWorkflowEfficiency
    rw [hpd]
  have halgo : (if useMl ∧ "bin_packing" = "auto" then predictOptimalAlgorithm w items
      else "bin_packing") = "bin_packing" := by
    rw [if_neg]
    rintro ⟨_, habs⟩
    simp at habs
  simp only [optimize, halgo, hrun, hwf]

end WarePathAI

namespace WarePathAI

unseal Rat.add Rat.mul Rat.sub Rat.inv in
theorem C3_degenerate_cex :
    optimize 1 wDeg ⟨[], []⟩ [rawScenarioA] "bin_packing" true = .error "division by zero" := by
  have hdims : ∀ it ∈ prepareItemsWithML
      (applySeasonalAdjustments [rawScenarioA] (predictSeasonalDemand 1 [rawScenarioA]))
      (calculateTurnoverPredictions [rawScenarioA]), 0 < it.length ∧ 0 < it.width :=
    prepared_dims (by decide)
  have hplace := @binPacking_no_placement wDeg
    (prepareItemsWithML
      (applySeasonalAdjustments [rawScenarioA] (predictSeasonalDemand 1 [rawScenarioA]))
      (calculateTurnoverPredictions [rawScenarioA]))
    (resetForRun ⟨[], []⟩)
    (fun it hit _s' =>
      findBestPosition_degenerate (hdims it hit).1 (hdims it hit).2 (Or.inl (by decide)))
  have hrun : runAlgorithm wDeg "bin_packing"
      (prepareItemsWithML (applySeasonalAdjustments [rawScenarioA] (predictSeasonalDemand 1 [rawScenarioA]))
        (calculateTurnoverPredictions [rawScenarioA])) (resetForRun ⟨[], []⟩) =
      .ok ([], resetForRun ⟨[], []⟩) := by
    unfold runAlgorithm
    rw [if_pos rfl, hplace]
  have hpd : calculatePickingDensity wDeg [] = .error "division by zero" := by
    unfold calculatePickingDensity pyDiv
    rw [if_pos (by decide)]
  have hwf : calculateWorkflowEfficiency wDeg [] = .error "division by zero" := by
    unfold calculateWorkflowEfficiency
    rw [hpd]
  simp only [optimize]
  rw [if_neg (by simp), hrun]
  simp only [hwf]

end WarePathAI

namespace WarePathAI

/-- C4 (amended): the overall traffic score of the workflow analysis is
`max(0, 100 - 20 * len(peak_zones))` where `peak_zones` is the three
highest-traffic of the four static zones; since the zone table is static,
the score is the constant 40 for every placed set — not a function of how
many zones exceed the congestion threshold. -/
theorem C4_traffic_component_constant (w : Warehouse) (placed : List Item) :
    trafficComponent (estimateTrafficPatterns w placed) = 40 := by
  have hlen : (estimateTrafficPatterns w placed).peakZones.length = 3 := by
    unfold estimateTrafficPatterns
    simp only [List.length_take, List.length_map, sortByDesc, length_stableSort, zonesTable]
    rfl
  unfold trafficComponent
  rw [hlen]
  norm_num

unseal Rat.add Rat.mul Rat.sub Rat.inv in
theorem C4_traffic_score_cex :
    trafficComponent (estimateTrafficPatterns w10 []) = 40 ∧
    claimedTrafficScore w10 [] = 100 ∧ (40 : ℚ) ≠ 100 := by
  decide

unseal Rat.add Rat.mul Rat.sub Rat.inv in
theorem scenarioA_eval :
    (binPackingOptimization w10 processedScenarioA ⟨[], []⟩).1.map (fun it => it.position) =
      [some (0, 0, 0)] ∧
    (calculateMetrics w10 (binPackingOptimization w10 processedScenarioA ⟨[], []⟩).1
      processedScenarioA).map (fun m => m.utilization) = .ok (533/100) := by
  decide

/-- C5: Scenario A — in the 10×5×3 warehouse, the single 2×2×2 unit is
placed by bin packing at position (0,0,0) and the reported utilization is
`round(8/150·100, 2) = 5.33`. -/
theorem C5_scenarioA :
    (binPackingOptimization w10 processedScenarioA ⟨[], []⟩).1.map (fun it => it.position) =
      [some (0, 0, 0)] ∧
    (calculateMetrics w10 (binPackingOptimization w10 processedScenarioA ⟨[], []⟩).1
      processedScenarioA).map (fun m => m.utilization) = .ok (533/100) :=
  scenarioA_eval

end WarePathAI

namespace WarePathAI

/-- C7: a bin-packing `optimize` run is fully determined by its inputs —
two calls with identical warehouse and item list give identical results
(placed positions, orientations and placement ordering included), whatever
grid and tracker state earlier calls left behind, because both per-run
stores are reset at the start of every call. -/
theorem C7_bin_packing_deterministic (month : ℕ) (w : Warehouse) (s1 s2 : EngineState)
    (items : List RawItem) (useMl : Bool) :
    optimize month w s1 items "bin_packing" useMl =
      optimize month w s2 items "bin_packing" useMl := rfl

/-- C8: any strategy selector that is none of the four recognized names
(nor `'auto'`, which is resolved before dispatch) makes `optimize` raise a
`ValueError` carrying the unknown name; no placement result is produced,
and the raised exception is a caller-facing error, not a process exit. -/
theorem C8_unknown_algorithm (month : ℕ) (w : Warehouse) (s : EngineState)
    (items : List RawItem) (alg : String) (useMl : Bool)
    (h : alg ∉ ["bin_packing", "space_filling", "hybrid", "ml_enhanced"])
    (hauto : alg ≠ "auto") :
    optimize month w s items alg useMl = .error ("Unknown algorithm: " ++ alg) := by
  simp only [List.mem_cons, List.not_mem_nil, or_false, not_or] at h
  obtain ⟨h1, h2, h3, h4⟩ := h
  have halgo : (if useMl ∧ alg = "auto" then predictOptimalAlgorithm w items else alg) = alg := by
    rw [if_neg]
    rintro ⟨_, habs⟩
    exact hauto habs
  simp only [optimize, halgo]
  unfold runAlgorithm
  rw [if_neg h1, if_neg h2, if_neg h3, if_neg h4]

unseal Rat.add Rat.mul Rat.sub Rat.inv in
theorem C8_unknown_algorithm_witness :
    optimize 1 w10 ⟨[], []⟩ [] "foo" true = .error ("Unknown algorithm: " ++ "foo") :=
  C8_unknown_algorithm 1 w10 ⟨[], []⟩ [] "foo" true (by decide) (by decide)

/-- C9: when the zone-restricted scan finds no feasible origin,
`findPositionInZone` returns exactly the result of the unrestricted
whole-warehouse scan `findBestPosition`, and the `ml_enhanced` placement
step leaves the unit unplaced precisely when that fallback also finds no
feasible origin. -/
theorem C9_zone_fallback (w : Warehouse) (item : Item) (s : EngineState)
    (h : zoneRestrictedScan w item (getOptimalZone item) s = none) :
    findPositionInZone w item (getOptimalZone item) s = findBestPosition w item s ∧
    ∀ placedAcc : List Item,
      ((mlEnhancedStep w (placedAcc, s) item).1 = placedAcc ↔
        findBestPosition w item s = none) := by
  have h1 : findPositionInZone w item (getOptimalZone item) s = findBestPosition w item s := by
    unfold findPositionInZone
    rw [h, none_orElse']
  refine ⟨h1, fun placedAcc => ?_⟩
  unfold mlEnhancedStep
  rw [h1]
  cases hfb : findBestPosition w item s with
  | none => simp
  | some pi =>
    simp only [reduceCtorEq, iff_false]
    intro habs
    have : (placedAcc ++ [{ pi.2 with placed := true, position := some pi.1 }]).length =
        placedAcc.length := by rw [habs]
    simp at this

unseal Rat.add Rat.mul Rat.sub Rat.inv in
theorem C9_zone_fallback_witness :
    findPositionInZone wTiny itemOversize (getOptimalZone itemOversize) ⟨[], []⟩ =
      findBestPosition wTiny itemOversize ⟨[], []⟩ ∧
    ∀ placedAcc : List Item,
      ((mlEnhancedStep wTiny (placedAcc, ⟨[], []⟩) itemOversize).1 = placedAcc ↔
        findBestPosition wTiny itemOversize ⟨[], []⟩ = none) :=
  C9_zone_fallback wTiny itemOversize ⟨[], []⟩ (by decide)

/-- C10: the seasonally adjusted quantity equals `max(1, ⌊q·f⌋)` for
every quantity and factor (Python's truncation and the floor agree wherever
the `max` can be affected), hence is at least 1, and the unit expansion
produces at least one unit per input item. -/
theorem C10_adjusted_quantity :
    (∀ q f : ℚ, adjustedQuantity q f = max 1 ⌊q * f⌋ ∧ 1 ≤ adjustedQuantity q f) ∧
    (∀ (items : List RawItem) (seasonal : List (String × ℚ)),
      ∀ a ∈ applySeasonalAdjustments items seasonal, 1 ≤ a.quantity) ∧
    (∀ (items : List RawItem) (seasonal : List (String × ℚ))
      (turnover : List (String × TurnoverData)),
      items.length ≤ (prepareItemsWithML (applySeasonalAdjustments items seasonal) turnover).length) := by
  have hmain : ∀ q f : ℚ, adjustedQuantity q f = max 1 ⌊q * f⌋ ∧ 1 ≤ adjustedQuantity q f := by
    intro q f
    unfold adjustedQuantity pyInt
    by_cases h : 0 ≤ q * f
    · rw [if_pos h]
      exact ⟨rfl, le_max_left _ _⟩
    · rw [if_neg h]
      push_neg at h
      have hc : ⌈q * f⌉ ≤ 0 := Int.ceil_le.mpr (by exact_mod_cast h.le)
      have hf : ⌊q * f⌋ ≤ 0 := le_trans (Int.floor_le_ceil _) hc
      rw [max_eq_left (by omega), max_eq_left (by omega)]
      exact ⟨rfl, le_refl 1⟩
  refine ⟨hmain, ?_, ?_⟩
  · intro items seasonal a ha
    unfold applySeasonalAdjustments at ha
    simp only [List.mem_map] at ha
    obtain ⟨r, _, rfl⟩ := ha
    exact le_max_left _ _
  · intro items seasonal turnover
    unfold prepareItemsWithML
    rw [List.length_map, List.enum_length]
    unfold expandUnits
    rw [List.length_flatMap]
    have hlen : items.length = (applySeasonalAdjustments items seasonal).length := by
      unfold applySeasonalAdjustments
      rw [List.length_map]
    rw [hlen]
    have : ∀ l : List AdjItem, (∀ a ∈ l, 1 ≤ a.quantity) →
        l.length ≤ (List.map (List.length ∘ fun item =>
          (List.range item.quantity.toNat).map fun i =>
            ({ idx := 0, id := item.name ++ "_" ++ toString (i + 1), name := item.name,
               length := item.length, width := item.width, height := item.height,
               volume := item.length * item.width * item.height, weight := item.weight,
               placed := false, position := none, rotation := 0,
               seasonalFactor := item.seasonalFactor,
               turnover := dictFind turnover item.name } : Item)) l).sum := by
      intro l hl
      induction l with
      | nil => simp
      | cons b t ih =>
        simp only [List.map_cons, List.sum_cons, List.length_cons, Function.comp_apply,
          List.length_map, List.length_range]
        have hb : 1 ≤ b.quantity.toNat := by
          have := hl b (by simp)
          omega
        have ht := ih (fun a ha => hl a (by simp [ha]))
        simp only [Function.comp_apply, List.length_map, List.length_range] at ht
        omega
    apply this
    intro a ha
    unfold applySeasonalAdjustments at ha
    simp only [List.mem_map] at ha
    obtain ⟨r, _, rfl⟩ := ha
    exact le_max_left _ _

end WarePathAI

namespace WarePathAI

theorem roundHalfEvenR_bounds (t : ℝ) :
    ⌊t⌋ ≤ roundHalfEvenR t ∧ roundHalfEvenR t ≤ ⌊t⌋ + 1 := by
  unfold roundHalfEvenR
  split_ifs <;> omega

theorem floor_ten_thousand : ⌊(10000 : ℝ)⌋ = 10000 := by
  have h : ((10000 : ℤ) : ℝ) = (10000 : ℝ) := by norm_num
  rw [← h, Int.floor_intCast]

theorem roundHalfEvenR_ten_thousand : roundHalfEvenR (10000 : ℝ) = 10000 := by
  unfold roundHalfEvenR
  rw [floor_ten_thousand]
  norm_num

theorem pyRoundR_hundred : pyRoundR (100 : ℝ) 2 = 100 := by
  unfold pyRoundR
  have h : (100 : ℝ) * 10 ^ 2 = 10000 := by norm_num
  rw [h, roundHalfEvenR_ten_thousand]
  norm_num

theorem pyRoundR_mem {t : ℝ} (h0 : 0 ≤ t) (h1 : t ≤ 100) :
    0 ≤ pyRoundR t 2 ∧ pyRoundR t 2 ≤ 100 := by
  have hb := roundHalfEvenR_bounds (t * 10 ^ 2)
  have hfl : (0 : ℤ) ≤ ⌊t * 10 ^ 2⌋ := Int.floor_nonneg.mpr (by positivity)
  have hup : roundHalfEvenR (t * 10 ^ 2) ≤ 10000 := by
    rcases eq_or_lt_of_le (show t * 10 ^ 2 ≤ 10000 by nlinarith) with he | hlt
    · rw [he, roundHalfEvenR_ten_thousand]
    · have hflt : ⌊t * 10 ^ 2⌋ < 10000 := by
        rw [Int.floor_lt]
        exact_mod_cast hlt
      omega
  constructor
  · unfold pyRoundR
    apply div_nonneg _ (by norm_num)
    exact_mod_cast le_trans hfl hb.1
  · unfold pyRoundR
    rw [div_le_iff₀ (by norm_num)]
    calc ((roundHalfEvenR (t * 10 ^ 2) : ℤ) : ℝ) ≤ ((10000 : ℤ) : ℝ) := by exact_mod_cast hup
    _ = 100 * 10 ^ 2 := by norm_num

end WarePathAI

namespace WarePathAI

/-- C6 (amended): the reported path efficiency always lies in [0, 100];
it is 0 when no units are eligible (the defined empty-path result), 100
when exactly one unit is eligible, and otherwise the rounded clamped ratio
of the centroid lower bound to the actual path distance (with 100 when the
bound is zero).  (The amendment is forced by the counterexample: with zero
eligible units the source reports 0, not 100.) -/
theorem C6_path_efficiency (w : Warehouse) (placed : List Item)
    (pickList : Option (List String)) :
    (0 ≤ (optimizePickingPath w placed pickList).pathEfficiency ∧
      (optimizePickingPath w placed pickList).pathEfficiency ≤ 100) ∧
    (eligibleItems placed pickList = [] →
      (optimizePickingPath w placed pickList).pathEfficiency = 0) ∧
    ((eligibleItems placed pickList).length = 1 →
      (optimizePickingPath w placed pickList).pathEfficiency = 100) ∧
    (2 ≤ (eligibleItems placed pickList).length →
      (optimizePickingPath w placed pickList).pathEfficiency =
        pyRoundR (if minimumSpanningTreeDistance ((eligibleItems placed pickList).map itemPos) = 0
          then 100
          else min 100 (max 0 (minimumSpanningTreeDistance ((eligibleItems placed pickList).map itemPos) /
            calcTotalDistance (calcOptimalPath w (eligibleItems placed pickList)).waypoints * 100))) 2) := by
  by_cases he : eligibleItems placed pickList = []
  · have hr : optimizePickingPath w placed pickList = emptyPathResult := by
      unfold optimizePickingPath
      rw [if_pos he]
    rw [hr]
    refine ⟨⟨le_refl 0, by norm_num [emptyPathResult]⟩, fun _ => rfl, fun h1 => ?_, fun h2 => ?_⟩
    · rw [he] at h1
      simp at h1
    · rw [he] at h2
      simp at h2
  · have hr : (optimizePickingPath w placed pickList).pathEfficiency =
        pyRoundR (calcPathEfficiency (calcOptimalPath w (eligibleItems placed pickList))
          (eligibleItems placed pickList)) 2 := by
      unfold optimizePickingPath
      rw [if_neg he]
    rcases Nat.lt_or_ge (eligibleItems placed pickList).length 2 with hlt | hge
    · -- exactly one eligible unit
      have hone : (eligibleItems placed pickList).length = 1 := by
        have : (eligibleItems placed pickList).length ≠ 0 := by
          intro h0
          exact he (List.length_eq_zero.mp h0)
        omega
      have heff : calcPathEfficiency (calcOptimalPath w (eligibleItems placed pickList))
          (eligibleItems placed pickList) = 100 := by
        unfold calcPathEfficiency
        rw [if_neg he, if_pos (by rw [List.length_map, hone]; norm_num)]
      rw [hr, heff, pyRoundR_hundred]
      refine ⟨⟨by norm_num, le_refl 100⟩, fun h0 => absurd h0 he, fun _ => rfl, fun h2 => ?_⟩
      omega
    · -- at least two eligible units
      have heff : calcPathEfficiency (calcOptimalPath w (eligibleItems placed pickList))
          (eligibleItems placed pickList) =
          (if minimumSpanningTreeDistance ((eligibleItems placed pickList).map itemPos) = 0
            then 100
            else min 100 (max 0 (minimumSpanningTreeDistance ((eligibleItems placed pickList).map itemPos) /
              calcTotalDistance (calcOptimalPath w (eligibleItems placed pickList)).waypoints * 100))) := by
        unfold calcPathEfficiency
        rw [if_neg he, if_neg (by rw [List.length_map]; omega)]
      have hval : 0 ≤ calcPathEfficiency (calcOptimalPath w (eligibleItems placed pickList))
            (eligibleItems placed pickList) ∧
          calcPathEfficiency (calcOptimalPath w (eligibleItems placed pickList))
            (eligibleItems placed pickList) ≤ 100 := by
        rw [heff]
        split_ifs
        · exact ⟨by norm_num, le_refl 100⟩
        · constructor
          · exact le_min (by norm_num) (le_max_left 0 _)
          · exact min_le_left _ _
      refine ⟨?_, fun h0 => absurd h0 he, fun h1 => ?_, fun _ => ?_⟩
      · rw [hr]
        exact pyRoundR_mem hval.1 hval.2
      · omega
      · rw [hr, heff]

end WarePathAI

namespace WarePathAI

unseal Rat.add Rat.mul Rat.sub Rat.inv in
theorem C6_path_efficiency_witness :
    (optimizePickingPath w10 [placedUnitA] none).pathEfficiency = 100 :=
  (C6_path_efficiency w10 [placedUnitA] none).2.2.1 (by decide)

theorem C6_path_efficiency_cex :
    (eligibleItems [placedUnitA] (some ["b"])).length = 0 ∧
    (optimizePickingPath w10 [placedUnitA] (some ["b"])).pathEfficiency = 0 ∧
    (0 : ℝ) ≠ 100 := by
  refine ⟨by decide, ?_, by norm_num⟩
  have he : eligibleItems [placedUnitA] (some ["b"]) = [] := by decide
  unfold optimizePickingPath
  rw [if_pos he]
  rfl


unseal Rat.add Rat.mul Rat.sub Rat.inv in
theorem C10_adjusted_quantity_witness :
    (adjustedQuantity 5 (7/10) = max 1 ⌊(5 : ℚ) * (7/10)⌋ ∧ 1 ≤ adjustedQuantity 5 (7/10)) ∧
    1 ≤ adjScenarioA.quantity ∧
    [rawScenarioA].length ≤
      (prepareItemsWithML (applySeasonalAdjustments [rawScenarioA] []) []).length :=
  ⟨C10_adjusted_quantity.1 5 (7/10),
   C10_adjusted_quantity.2.1 [rawScenarioA] [] adjScenarioA (by decide),
   C10_adjusted_quantity.2.2 [rawScenarioA] [] []⟩

unseal Rat.add Rat.mul Rat.sub Rat.inv in
theorem C3_degenerate_witness :
    runAlgorithm wDeg "bin_packing"
      (prepareItemsWithML (applySeasonalAdjustments [rawScenarioA] (predictSeasonalDemand 2 [rawScenarioA]))
        (calculateTurnoverPredictions [rawScenarioA])) (resetForRun ⟨[], []⟩) =
      .ok ([], resetForRun ⟨[], []⟩) ∧
    optimize 2 wDeg ⟨[], []⟩ [rawScenarioA] "bin_packing" false = .error "division by zero" :=
  C3_degenerate_corrected 2 wDeg ⟨[], []⟩ [rawScenarioA] false (Or.inl (by decide)) (by decide)

end WarePathAI
